import Mathlib

/-!
Verification of the ice-9 daemon (src/ice9d.c).

This file gives a shallow embedding of the per-connection state machine,
the frame codec, the wait-set assembly of the event loop, and the
session-table maintenance of ice9d.c, and proves (or refutes) the
specified properties against the embedding.

Conventions: C byte buffers are lists of naturals (each entry one byte);
buffer occupancy counters become list lengths or explicit naturals;
nullable pointers become Option or Bool presence flags; results of
external calls (pipe creation, process creation, memory allocation,
asynchronous write initiation) are passed in explicitly.
-/

namespace Ice9

/-- RECVBUF_SIZE, ice9d.c line 46. -/
def RECVBUF_SIZE : Nat := 72 * 1024

/-- SENDBUF_SIZE, ice9d.c line 47. -/
def SENDBUF_SIZE : Nat := 128 * 1024

/-- PIPE_READ_SIZE, ice9d.c line 44. -/
def PIPE_READ_SIZE : Nat := 32768

/-- MAX_CONNECTIONS, ice9d.c line 42. -/
def MAX_CONNECTIONS : Nat := 16

/-- sizeof(struct MessageHeader), ice9d.c lines 94-98: one command byte plus
a packed little-endian uint16 payload length, so 3 bytes. -/
def MESSAGE_HEADER_SIZE : Nat := 3

/-- Payload length of the frame at the head of a buffer: bytes 1 and 2 read
as a little-endian uint16 (header->payload_length, ice9d.c line 186).
Zero when fewer than 3 bytes are present (the field is then never read by
the code, line 181). -/
def payloadLen : List Nat → Nat
  | _ :: b0 :: b1 :: _ => b0 + 256 * b1
  | _ => 0

/-- Frame parsing step of connection_read, ice9d.c lines 181-189 and 398-405:
with at least sizeof(struct MessageHeader) = 3 bytes buffered and at least
3 + payload_length bytes buffered, the head frame is (command, payload) and
total_length = 3 + payload_length bytes are drained; otherwise nothing is
consumed. -/
def tryParse : List Nat → Option (Nat × List Nat × Nat)
  | c :: b0 :: b1 :: rest =>
      if b0 + 256 * b1 ≤ rest.length then
        some (c, rest.take (b0 + 256 * b1), 3 + (b0 + 256 * b1))
      else none
  | _ => none

/-- Frame encoding of connection_write, ice9d.c lines 442-452: the command
byte (stored into an unsigned char), the payload length (stored into a
uint16, laid out little-endian), then the payload bytes. -/
def encode (cmd : Nat) (payload : List Nat) : List Nat :=
  cmd % 256 :: payload.length % 65536 % 256 :: payload.length % 65536 / 256 :: payload

/-- C5: tryParse returns Incomplete (none) iff fewer than 3 bytes or fewer
than 3 + payload_length bytes are buffered; otherwise it yields the head
frame (command = byte 0, payload = bytes 3 .. 3+payload_length) and the
drain count is exactly 3 + payload_length, which never exceeds the buffer
length. -/
theorem tryParse_frame_boundary (buf : List Nat) :
    (tryParse buf = none ↔ buf.length < 3 ∨ buf.length < 3 + payloadLen buf) ∧
    (∀ c p n, tryParse buf = some (c, p, n) →
      buf.head? = some c ∧ p = (buf.drop 3).take (payloadLen buf) ∧
      n = 3 + payloadLen buf ∧ n ≤ buf.length ∧ p.length = payloadLen buf) := by
  match buf with
  | [] => simp [tryParse, payloadLen]
  | [a] => simp [tryParse, payloadLen]
  | [a, b] => simp [tryParse, payloadLen]
  | a :: b0 :: b1 :: rest =>
      by_cases hL : b0 + 256 * b1 ≤ rest.length
      · refine ⟨by simp [tryParse, payloadLen, hL]; omega, ?_⟩
        intro c p n h
        simp only [tryParse, if_pos hL, Option.some.injEq, Prod.mk.injEq] at h
        obtain ⟨hc, hp, hn⟩ := h
        subst hc hp hn
        refine ⟨rfl, rfl, rfl, by simp; omega, ?_⟩
        simp [payloadLen, List.length_take]
        omega
      · refine ⟨by simp [tryParse, payloadLen, hL]; omega, ?_⟩
        intro c p n h
        simp [tryParse, if_neg hL] at h

/-- Witness for tryParse_frame_boundary at the concrete buffer
73 01 00 61 (an I frame with one payload byte). -/
theorem tryParse_frame_boundary_witness :
    ([73, 1, 0, 97] : List Nat).head? = some 73 ∧
    ([97] : List Nat) = (([73, 1, 0, 97] : List Nat).drop 3).take (payloadLen [73, 1, 0, 97]) ∧
    (4 : Nat) = 3 + payloadLen [73, 1, 0, 97] ∧
    4 ≤ ([73, 1, 0, 97] : List Nat).length ∧
    ([97] : List Nat).length = payloadLen [73, 1, 0, 97] :=
  (tryParse_frame_boundary [73, 1, 0, 97]).2 73 [97] 4 (by decide)

/-- C6: encoding a frame whose command is a byte and whose payload length is
at most 65535 and then parsing the encoded bytes yields the original command
and payload, consuming exactly the encoded length, which is
3 + payload length. -/
theorem encode_tryParse_roundtrip (cmd : Nat) (payload : List Nat)
    (hc : cmd < 256) (hp : payload.length ≤ 65535) :
    tryParse (encode cmd payload) = some (cmd, payload, (encode cmd payload).length) ∧
    (encode cmd payload).length = 3 + payload.length := by
  have h1 : payload.length % 65536 = payload.length := Nat.mod_eq_of_lt (by omega)
  have h2 : cmd % 256 = cmd := Nat.mod_eq_of_lt hc
  have h3 : payload.length % 256 + 256 * (payload.length / 256) = payload.length :=
    Nat.mod_add_div payload.length 256
  constructor
  · simp [encode, tryParse, h1, h2, h3]
    omega
  · simp [encode]
    omega

/-- Witness for encode_tryParse_roundtrip at command byte 79 and a two-byte
payload. -/
theorem encode_tryParse_roundtrip_witness :
    tryParse (encode 79 [104, 105]) = some (79, [104, 105], (encode 79 [104, 105]).length) ∧
    (encode 79 [104, 105]).length = 3 + ([104, 105] : List Nat).length :=
  encode_tryParse_roundtrip 79 [104, 105] (by decide) (by decide)

/-- ConnectionState, ice9d.c lines 64-69. -/
inductive ConnectionState
  | CS_SETUP
  | CS_RUNNING
  | CS_CLOSING
deriving DecidableEq

/-- struct Connection, ice9d.c lines 71-92, restricted to the fields the
modelled operations touch. recvbuf is the buffered bytes (recvbuf_used is
its length); the send buffer is tracked by its occupancy sendbuf_used as
the wait-set assembly only reads that counter. Nullable pointers become
presence flags; stdin_pending models pipe9x_write_pending(stdin_pipe). -/
structure Connection where
  id : Nat
  state : ConnectionState
  recvbuf : List Nat
  sendbuf_used : Nat
  application_path : Option (List Nat)
  command_line : Option (List Nat)
  working_directory : Option (List Nat)
  process : Bool
  stdin_pipe : Bool
  stdin_pending : Bool
  stdout_pipe : Bool
  stderr_pipe : Bool
deriving DecidableEq

/-- Per-session wait-set entries of the event loop, ice9d.c lines 737-769:
the stdout read event, the stderr read event, the child process handle, and
the stdin write event. -/
inductive WaitEntry
  | stdoutEv
  | stderrEv
  | procExit
  | stdinEv
deriving DecidableEq

/-- Wait-set entries contributed by one session, translated from the
assembly loop of main, ice9d.c lines 727-769: stdout/stderr read events
only when sendbuf has at least sizeof(struct MessageHeader) +
PIPE_READ_SIZE spare bytes; the process handle only when sendbuf has at
least sizeof(struct MessageHeader) + sizeof(int32_t) spare bytes and both
output pipes are NULL and the process handle is non-NULL; the stdin write
event exactly when a write is in flight. -/
def waitEntriesFor (c : Connection) : List WaitEntry :=
  (if MESSAGE_HEADER_SIZE + PIPE_READ_SIZE ≤ SENDBUF_SIZE - c.sendbuf_used then
    (if c.stdout_pipe = true then [WaitEntry.stdoutEv] else []) ++
    (if c.stderr_pipe = true then [WaitEntry.stderrEv] else [])
  else []) ++
  (if MESSAGE_HEADER_SIZE + 4 ≤ SENDBUF_SIZE - c.sendbuf_used then
    (if c.stdout_pipe = false ∧ c.stderr_pipe = false ∧ c.process = true then
      [WaitEntry.procExit]
    else [])
  else []) ++
  (if c.stdin_pipe = true ∧ c.stdin_pending = true then [WaitEntry.stdinEv] else [])

/-- Size of the assembled wait set: the process-wide socket event plus the
per-session entries, ice9d.c lines 721-769. -/
def numWaitHandles (table : List Connection) : Nat :=
  1 + (table.map fun c => (waitEntriesFor c).length).sum

/-- Membership characterization for the stdout read event in a session's
wait-set contribution. -/
theorem mem_waitEntries_stdout (c : Connection) :
    WaitEntry.stdoutEv ∈ waitEntriesFor c ↔
      MESSAGE_HEADER_SIZE + PIPE_READ_SIZE ≤ SENDBUF_SIZE - c.sendbuf_used ∧
      c.stdout_pipe = true := by
  unfold waitEntriesFor
  split_ifs <;> simp_all

/-- Membership characterization for the stderr read event in a session's
wait-set contribution. -/
theorem mem_waitEntries_stderr (c : Connection) :
    WaitEntry.stderrEv ∈ waitEntriesFor c ↔
      MESSAGE_HEADER_SIZE + PIPE_READ_SIZE ≤ SENDBUF_SIZE - c.sendbuf_used ∧
      c.stderr_pipe = true := by
  unfold waitEntriesFor
  split_ifs <;> simp_all

/-- Membership characterization for the child process handle in a session's
wait-set contribution. -/
theorem mem_waitEntries_procExit (c : Connection) :
    WaitEntry.procExit ∈ waitEntriesFor c ↔
      MESSAGE_HEADER_SIZE + 4 ≤ SENDBUF_SIZE - c.sendbuf_used ∧
      c.stdout_pipe = false ∧ c.stderr_pipe = false ∧ c.process = true := by
  unfold waitEntriesFor
  split_ifs <;> simp_all

/-- C2: at wait-set assembly, the stdout/stderr read events of a session are
included only if its send buffer has at least 3 + 32768 spare bytes, and
the child exit handle is included only if the send buffer has at least
3 + 4 spare bytes and both output pipes are absent. -/
theorem wait_set_backpressure_gates (c : Connection) (e : WaitEntry)
    (he : e ∈ waitEntriesFor c) :
    ((e = WaitEntry.stdoutEv ∨ e = WaitEntry.stderrEv) →
      3 + 32768 ≤ SENDBUF_SIZE - c.sendbuf_used) ∧
    (e = WaitEntry.procExit →
      3 + 4 ≤ SENDBUF_SIZE - c.sendbuf_used ∧
      c.stdout_pipe = false ∧ c.stderr_pipe = false) := by
  constructor
  · rintro (rfl | rfl)
    · have h := (mem_waitEntries_stdout c).1 he
      simpa [MESSAGE_HEADER_SIZE, PIPE_READ_SIZE] using h.1
    · have h := (mem_waitEntries_stderr c).1 he
      simpa [MESSAGE_HEADER_SIZE, PIPE_READ_SIZE] using h.1
  · rintro rfl
    have h := (mem_waitEntries_procExit c).1 he
    exact ⟨by simpa [MESSAGE_HEADER_SIZE] using h.1, h.2.1, h.2.2.1⟩

/-- Witness session for the wait-set gating claims: running child, both
output pipes open, empty send buffer. -/
def gateWitnessConn : Connection :=
  { id := 1, state := ConnectionState.CS_RUNNING, recvbuf := [], sendbuf_used := 0,
    application_path := none, command_line := none, working_directory := none,
    process := true, stdin_pipe := true, stdin_pending := false,
    stdout_pipe := true, stderr_pipe := true }

/-- Witness for wait_set_backpressure_gates: the stdout event is in the wait
set of gateWitnessConn, so its gate condition holds there. -/
theorem wait_set_backpressure_gates_witness :
    3 + 32768 ≤ SENDBUF_SIZE - gateWitnessConn.sendbuf_used :=
  (wait_set_backpressure_gates gateWitnessConn WaitEntry.stdoutEv (by decide)).1
    (Or.inl rfl)

/-- C10: each session contributes at most 3 wait handles (the exit handle is
never present together with a stdout/stderr event), so the wait set of at
most MAX_CONNECTIONS sessions never exceeds the fixed array bound
1 + MAX_CONNECTIONS * 3 of ice9d.c line 721. -/
theorem wait_set_size_bound :
    (∀ c : Connection, (waitEntriesFor c).length ≤ 3 ∧
      (WaitEntry.procExit ∈ waitEntriesFor c →
        WaitEntry.stdoutEv ∉ waitEntriesFor c ∧
        WaitEntry.stderrEv ∉ waitEntriesFor c)) ∧
    ∀ table : List Connection, table.length ≤ MAX_CONNECTIONS →
      numWaitHandles table ≤ 1 + MAX_CONNECTIONS * 3 := by
  have hlen : ∀ c : Connection, (waitEntriesFor c).length ≤ 3 := by
    intro c
    unfold waitEntriesFor
    rcases hso : c.stdout_pipe <;> rcases hse : c.stderr_pipe <;>
      split_ifs <;> simp_all
  refine ⟨fun c => ⟨hlen c, ?_⟩, ?_⟩
  · intro hmem
    have hgate := (mem_waitEntries_procExit c).1 hmem
    constructor
    · intro hbad
      have := ((mem_waitEntries_stdout c).1 hbad).2
      simp [hgate.2.1] at this
    · intro hbad
      have := ((mem_waitEntries_stderr c).1 hbad).2
      simp [hgate.2.2.1] at this
  · have hsum : ∀ table : List Connection,
        (table.map fun c => (waitEntriesFor c).length).sum ≤ table.length * 3 := by
      intro table
      induction table with
      | nil => simp
      | cons c cs ih =>
          simp only [List.map_cons, List.sum_cons, List.length_cons]
          have := hlen c
          omega
    intro table htab
    unfold numWaitHandles
    have := hsum table
    simp only [MAX_CONNECTIONS] at htab ⊢
    omega

/-- Witness for wait_set_size_bound: the bound applied to a singleton
session table. -/
theorem wait_set_size_bound_witness :
    numWaitHandles [gateWitnessConn] ≤ 1 + MAX_CONNECTIONS * 3 :=
  wait_set_size_bound.2 [gateWitnessConn] (by decide)

/-- Fresh session as filled in by connection_init, ice9d.c lines 124-141:
state CS_SETUP, both buffers empty, all strings NULL, process and all
pipe handles NULL. -/
def newConnection (connId : Nat) : Connection :=
  { id := connId, state := ConnectionState.CS_SETUP, recvbuf := [], sendbuf_used := 0,
    application_path := none, command_line := none, working_directory := none,
    process := false, stdin_pipe := false, stdin_pending := false,
    stdout_pipe := false, stderr_pipe := false }

/-- connection_init, ice9d.c lines 114-144: when num_connections equals
MAX_CONNECTIONS the new socket is closed and the table is untouched;
otherwise a fresh session is appended at index num_connections. -/
def connection_init (table : List Connection) (nextId : Nat) : List Connection :=
  if table.length = MAX_CONNECTIONS then table
  else table ++ [newConnection nextId]

/-- C7: accepting with fewer than 16 live sessions appends a fresh session
in state CS_SETUP with empty buffers and all optional fields absent,
growing the table by one; accepting with exactly 16 leaves the table
unchanged. -/
theorem connection_init_spec (table : List Connection) (nextId : Nat) :
    (table.length < MAX_CONNECTIONS →
      connection_init table nextId = table ++ [newConnection nextId] ∧
      (connection_init table nextId).length = table.length + 1 ∧
      (newConnection nextId).state = ConnectionState.CS_SETUP ∧
      (newConnection nextId).recvbuf = [] ∧
      (newConnection nextId).sendbuf_used = 0 ∧
      (newConnection nextId).application_path = none ∧
      (newConnection nextId).command_line = none ∧
      (newConnection nextId).working_directory = none ∧
      (newConnection nextId).process = false ∧
      (newConnection nextId).stdin_pipe = false ∧
      (newConnection nextId).stdout_pipe = false ∧
      (newConnection nextId).stderr_pipe = false) ∧
    (table.length = MAX_CONNECTIONS → connection_init table nextId = table) := by
  constructor
  · intro hlt
    have hne : table.length ≠ MAX_CONNECTIONS := Nat.ne_of_lt hlt
    refine ⟨by simp [connection_init, hne], by simp [connection_init, hne], ?_⟩
    simp [newConnection]
  · intro heq
    simp [connection_init, heq]

/-- Witness for connection_init_spec at the empty session table. -/
theorem connection_init_spec_witness :
    connection_init [] 1 = [] ++ [newConnection 1] ∧
    (connection_init [] 1).length = ([] : List Connection).length + 1 ∧
    (newConnection 1).state = ConnectionState.CS_SETUP ∧
    (newConnection 1).recvbuf = [] ∧
    (newConnection 1).sendbuf_used = 0 ∧
    (newConnection 1).application_path = none ∧
    (newConnection 1).command_line = none ∧
    (newConnection 1).working_directory = none ∧
    (newConnection 1).process = false ∧
    (newConnection 1).stdin_pipe = false ∧
    (newConnection 1).stdout_pipe = false ∧
    (newConnection 1).stderr_pipe = false :=
  (connection_init_spec [] 1).1 (by decide)

/-- Results of the external calls made while handling frames: malloc inside
store_string (ice9d.c line 414), the three pipe9x_create calls in creation
order stdin, stdout, stderr (lines 232, 241, 253), CreateProcess
(line 303), and whether pipe9x_write_initiate returns ERROR_IO_PENDING
(line 376). -/
structure Env where
  malloc_ok : Bool
  stdin_pipe_ok : Bool
  stdout_pipe_ok : Bool
  stderr_pipe_ok : Bool
  create_process_ok : Bool
  write_io_pending : Bool
deriving DecidableEq

/-- Pipe ends created by the three pipe9x_create calls of the E handler,
ice9d.c lines 229-266. -/
inductive PipeEnd
  | stdin_read
  | stdin_write
  | stdout_read
  | stdout_write
  | stderr_read
  | stderr_write
deriving DecidableEq

/-- Outcome of the E handler: connection_close taken, the undefined
strchr(NULL) dereference reached, or a child spawned with the updated
session. -/
inductive ExecOutcome
  | sessionClosed
  | nullDeref
  | spawned (c : Connection)
deriving DecidableEq

/-- Result of the E handler: which pipe ends the handler explicitly closed,
and its outcome. -/
structure ExecResult where
  closed_ends : List PipeEnd
  outcome : ExecOutcome
deriving DecidableEq

/-- E-frame handler, ice9d.c lines 227-357, in source order: create the
stdin pipe pair (on failure: nothing to close, connection_close); create
the stdout pipe pair (on failure: close stdin_write and stdin_read,
connection_close); create the stderr pipe pair (on failure: close
stdout_write, stdout_read, stdin_write, stdin_read, connection_close);
then line 286 evaluates strchr(connection->application_path, ...), which
dereferences a null pointer when no A frame ever stored the path; then
CreateProcess: on success close the child-side ends stdin_read,
stdout_write, stderr_write and store the process and the three
server-side pipe handles (lines 315-324); on failure the pipe cleanup is
commented out (lines 341-348) and connection_close is taken. -/
def handleExecute (env : Env) (c : Connection) : ExecResult :=
  if env.stdin_pipe_ok = false then
    { closed_ends := [], outcome := ExecOutcome.sessionClosed }
  else if env.stdout_pipe_ok = false then
    { closed_ends := [PipeEnd.stdin_write, PipeEnd.stdin_read],
      outcome := ExecOutcome.sessionClosed }
  else if env.stderr_pipe_ok = false then
    { closed_ends := [PipeEnd.stdout_write, PipeEnd.stdout_read,
                      PipeEnd.stdin_write, PipeEnd.stdin_read],
      outcome := ExecOutcome.sessionClosed }
  else
    match c.application_path with
    | none => { closed_ends := [], outcome := ExecOutcome.nullDeref }
    | some _ =>
        if env.create_process_ok = true then
          { closed_ends := [PipeEnd.stdin_read, PipeEnd.stdout_write, PipeEnd.stderr_write],
            outcome := ExecOutcome.spawned
              { c with process := true, stdin_pipe := true, stdin_pending := false,
                       stdout_pipe := true, stderr_pipe := true } }
        else
          { closed_ends := [], outcome := ExecOutcome.sessionClosed }

/-- Result of one frame handler inside the parse loop of connection_read:
continue with an updated session, stall (return true with the frame left
buffered), connection_close taken (return false), or undefined behaviour
reached. -/
inductive FrameAction
  | proceed (c : Connection)
  | stall
  | close
  | undef
deriving DecidableEq

/-- Per-frame dispatch of connection_read, ice9d.c lines 192-396. A, C and W
(65, 67, 87) replace the stored string via store_string, closing the
connection when allocation fails; E (69) runs the execute path; I (73)
with an empty payload closes stdin_pipe, with a non-empty payload and a
non-NULL stdin_pipe either stalls when a write is pending (line 371) or
initiates the write (closing the connection unless it returns
ERROR_IO_PENDING); with a NULL stdin_pipe the frame falls through consumed
(no else branch at line 366); any other command closes the connection. -/
def handleFrame (env : Env) (c : Connection) (cmd : Nat) (payload : List Nat) : FrameAction :=
  if cmd = 65 then
    if env.malloc_ok = true then FrameAction.proceed { c with application_path := some payload }
    else FrameAction.close
  else if cmd = 67 then
    if env.malloc_ok = true then FrameAction.proceed { c with command_line := some payload }
    else FrameAction.close
  else if cmd = 87 then
    if env.malloc_ok = true then FrameAction.proceed { c with working_directory := some payload }
    else FrameAction.close
  else if cmd = 69 then
    match (handleExecute env c).outcome with
    | ExecOutcome.spawned c2 => FrameAction.proceed c2
    | ExecOutcome.sessionClosed => FrameAction.close
    | ExecOutcome.nullDeref => FrameAction.undef
  else if cmd = 73 then
    if payload.length = 0 then
      FrameAction.proceed { c with stdin_pipe := false }
    else if c.stdin_pipe = true then
      if c.stdin_pending = true then FrameAction.stall
      else if env.write_io_pending = true then
        FrameAction.proceed { c with stdin_pending := true }
      else FrameAction.close
    else FrameAction.proceed c
  else FrameAction.close

/-- Overall result of the parse loop of connection_read. -/
inductive ProcessResult
  | alive (c : Connection)
  | closed
  | undef
deriving DecidableEq

/-- Bounds on the drain count produced by tryParse. -/
theorem tryParse_consumed_bounds {buf : List Nat} {c : Nat} {p : List Nat} {n : Nat}
    (h : tryParse buf = some (c, p, n)) : 3 ≤ n ∧ n ≤ buf.length := by
  match buf with
  | [] => simp [tryParse] at h
  | [a] => simp [tryParse] at h
  | [a, b] => simp [tryParse] at h
  | a :: b0 :: b1 :: rest =>
      by_cases hL : b0 + 256 * b1 ≤ rest.length
      · simp only [tryParse, if_pos hL, Option.some.injEq, Prod.mk.injEq] at h
        obtain ⟨-, -, hn⟩ := h
        subst hn
        simp only [List.length_cons]
        omega
      · simp [tryParse, if_neg hL] at h

/-- Parse loop of connection_read, ice9d.c lines 181-406: while a complete
frame is buffered, dispatch it, then drain total_length = 3 +
payload_length bytes from the head of the receive buffer (lines 398-401).
A stall returns with the buffer unchanged (line 371); connection_close
returns false; the loop exits normally when no complete frame remains. -/
def processFrames (env : Env) (c : Connection) : ProcessResult :=
  match h : tryParse c.recvbuf with
  | none => ProcessResult.alive c
  | some (cmd, payload, n) =>
      match handleFrame env c cmd payload with
      | FrameAction.stall => ProcessResult.alive c
      | FrameAction.close => ProcessResult.closed
      | FrameAction.undef => ProcessResult.undef
      | FrameAction.proceed c2 =>
          processFrames env { c2 with recvbuf := c.recvbuf.drop n }
termination_by c.recvbuf.length
decreasing_by
  have hb := tryParse_consumed_bounds h
  simp only [List.length_drop]
  omega

/-- Handler run when the stdin write-completion event wakes the loop,
ice9d.c lines 837-853: pipe9x_write_result consumes the completion (the
write is no longer in flight); an error closes the connection; on success
nothing else happens — in particular connection_read is not re-entered,
the receive buffer is untouched and no new pipe write is initiated. -/
def onStdinWriteComplete (writeOk : Bool) (c : Connection) : ProcessResult :=
  if writeOk = true then ProcessResult.alive { c with stdin_pending := false }
  else ProcessResult.closed

/-- C8: if any of the three pipe creations of the E handler fails, the pipe
ends created by the earlier successful creations are exactly the ones
closed, the session is destroyed, and no child is spawned (so no pipe
handle is stored in the session). -/
theorem pipe_failure_cleanup (env : Env) (c : Connection)
    (h : ¬(env.stdin_pipe_ok = true ∧ env.stdout_pipe_ok = true ∧ env.stderr_pipe_ok = true)) :
    (handleExecute env c).outcome = ExecOutcome.sessionClosed ∧
    (handleExecute env c).closed_ends =
      (if env.stdin_pipe_ok = true then
        if env.stdout_pipe_ok = true then
          [PipeEnd.stdout_write, PipeEnd.stdout_read, PipeEnd.stdin_write, PipeEnd.stdin_read]
        else [PipeEnd.stdin_write, PipeEnd.stdin_read]
      else []) ∧
    ∀ c2, (handleExecute env c).outcome ≠ ExecOutcome.spawned c2 := by
  rcases h1 : env.stdin_pipe_ok <;> rcases h2 : env.stdout_pipe_ok <;>
    rcases h3 : env.stderr_pipe_ok <;>
    simp_all [handleExecute]

/-- Witness for pipe_failure_cleanup: the stderr pipe creation fails after
the first two succeed, so all four earlier ends are closed. -/
theorem pipe_failure_cleanup_witness :
    (handleExecute ⟨true, true, true, false, true, true⟩ gateWitnessConn).outcome =
      ExecOutcome.sessionClosed ∧
    (handleExecute ⟨true, true, true, false, true, true⟩ gateWitnessConn).closed_ends =
      (if (true : Bool) = true then
        if (true : Bool) = true then
          [PipeEnd.stdout_write, PipeEnd.stdout_read, PipeEnd.stdin_write, PipeEnd.stdin_read]
        else [PipeEnd.stdin_write, PipeEnd.stdin_read]
      else []) ∧
    ∀ c2, (handleExecute ⟨true, true, true, false, true, true⟩ gateWitnessConn).outcome ≠
      ExecOutcome.spawned c2 :=
  pipe_failure_cleanup ⟨true, true, true, false, true, true⟩ gateWitnessConn (by decide)

/-- C9: when all three pipe creations succeed and no A frame ever set
application_path, the E handler reaches the strchr(NULL) dereference
(undefined behaviour) rather than any handled error path — in particular
it does not take the connection_close error path. -/
theorem execute_null_application_path (env : Env) (c : Connection)
    (h1 : env.stdin_pipe_ok = true) (h2 : env.stdout_pipe_ok = true)
    (h3 : env.stderr_pipe_ok = true) (hA : c.application_path = none) :
    (handleExecute env c).outcome = ExecOutcome.nullDeref ∧
    (handleExecute env c).outcome ≠ ExecOutcome.sessionClosed := by
  simp [handleExecute, h1, h2, h3, hA]

/-- Witness session for the null application_path scenario: a fresh
session that received E as its first frame. -/
def nullPathConn : Connection := newConnection 2

/-- Witness for execute_null_application_path at a fresh session with all
pipe creations succeeding. -/
theorem execute_null_application_path_witness :
    (handleExecute ⟨true, true, true, true, true, true⟩ nullPathConn).outcome =
      ExecOutcome.nullDeref ∧
    (handleExecute ⟨true, true, true, true, true, true⟩ nullPathConn).outcome ≠
      ExecOutcome.sessionClosed :=
  execute_null_application_path ⟨true, true, true, true, true, true⟩ nullPathConn
    rfl rfl rfl rfl

/-- Session exhibiting the stalled-frame behaviour: Running, a non-empty I
frame (73 01 00 61) at the head of the receive buffer, stdin_pipe present
with a write in flight. -/
def stalledConn : Connection :=
  { id := 3, state := ConnectionState.CS_RUNNING, recvbuf := [73, 1, 0, 97],
    sendbuf_used := 0, application_path := some [97], command_line := some [97],
    working_directory := none, process := true, stdin_pipe := true,
    stdin_pending := true, stdout_pipe := true, stderr_pipe := true }

/-- All-success environment for the stalled-frame evaluation. -/
def envAllOk : Env := ⟨true, true, true, true, true, true⟩

/-- C1: evaluation at the failing input. The non-empty I frame at the head
of the receive buffer is stalled while a stdin write is in flight
(connection_read leaves the session, buffer included, unchanged); but when
the in-flight write then completes successfully, the completion handler of
ice9d.c lines 837-853 only clears the in-flight status: the receive buffer
still holds the complete I frame unparsed and no pipe write has been
initiated, so the stalled frame is NOT dispatched upon write completion
(it is re-attempted only after a later recv returns new socket data,
ice9d.c lines 155-181). -/
theorem stalled_input_frame_not_redispatched :
    processFrames envAllOk stalledConn = ProcessResult.alive stalledConn ∧
    onStdinWriteComplete true stalledConn =
      ProcessResult.alive { stalledConn with stdin_pending := false } ∧
    ({ stalledConn with stdin_pending := false } : Connection).recvbuf = stalledConn.recvbuf ∧
    ({ stalledConn with stdin_pending := false } : Connection).stdin_pending = false ∧
    tryParse ({ stalledConn with stdin_pending := false } : Connection).recvbuf =
      some (73, [97], 4) := by
  refine ⟨?_, by decide, by decide, by decide, by decide⟩
  rw [processFrames]
  decide

/-- Per-session view of the event loop after a child has been spawned:
presence of the two output pipes and the process handle, whether
connection_close has run, and the trace of command bytes of the frames so
far appended to the send buffer by connection_write (79 = O, 69 = E,
88 = X), oldest first. -/
structure RunState where
  stdout_pipe : Bool
  stderr_pipe : Bool
  process : Bool
  destroyed : Bool
  sent : List Nat
deriving DecidableEq

/-- Session state right after a successful E frame, ice9d.c lines 315-334:
both output pipes and the process handle present, nothing sent yet. -/
def initRunState : RunState :=
  { stdout_pipe := true, stderr_pipe := true, process := true,
    destroyed := false, sent := [] }

/-- One dispatch of the event loop for a session after a child has been
spawned, ice9d.c lines 807-860 together with connection_read (lines
146-409), pipe_read (lines 587-655) and process_exit (lines 657-673). A
stdout/stderr completion is dispatched only while the corresponding pipe
handle is non-NULL (lines 823, 830) and appends one O (resp. E) frame; at
end-of-file the pipe handle is also cleared (lines 629-630). The process
handle is dispatched only when it was in the wait set, which per lines
754-762 requires both output pipes NULL and the process handle non-NULL,
with no intervening state change because the loop is single threaded;
process_exit clears the process handle and appends the X frame (lines
665-672). The exec_again step models a further E frame dispatched by
connection_read: the frame dispatcher (lines 192-396) has no state guard,
so an E frame is executed in any state, including CS_CLOSING after the X
frame was appended; application_path is still set from the first E (it is
only freed in connection_close, line 527), so CreateProcess can succeed
again, and lines 321-324 then re-set the process handle and both output
pipe handles, re-arming the O/E/X dispatches. connection_close (modelled
by the destroy step, available on every error path) clears all handles and
appends nothing (lines 489-534). Steps that append a frame without
checking buffer space over-approximate connection_write, which on
insufficient space closes the connection without appending; that
behaviour is covered by the destroy step. -/
inductive RunStep : RunState → RunState → Prop
  | stdout_data (s : RunState) (h : s.destroyed = false) (hp : s.stdout_pipe = true) :
      RunStep s { s with sent := s.sent ++ [79] }
  | stdout_eof (s : RunState) (h : s.destroyed = false) (hp : s.stdout_pipe = true) :
      RunStep s { s with stdout_pipe := false, sent := s.sent ++ [79] }
  | stderr_data (s : RunState) (h : s.destroyed = false) (hp : s.stderr_pipe = true) :
      RunStep s { s with sent := s.sent ++ [69] }
  | stderr_eof (s : RunState) (h : s.destroyed = false) (hp : s.stderr_pipe = true) :
      RunStep s { s with stderr_pipe := false, sent := s.sent ++ [69] }
  | proc_exit (s : RunState) (h : s.destroyed = false) (h1 : s.stdout_pipe = false)
      (h2 : s.stderr_pipe = false) (h3 : s.process = true) :
      RunStep s { s with process := false, sent := s.sent ++ [88] }
  | exec_again (s : RunState) (h : s.destroyed = false) :
      RunStep s { s with process := true, stdout_pipe := true, stderr_pipe := true }
  | destroy (s : RunState) (h : s.destroyed = false) :
      RunStep s { s with destroyed := true, process := false, stdout_pipe := false, stderr_pipe := false }

/-- States of a session reachable from the post-spawn state by event-loop
dispatches. -/
inductive RunReaches : RunState → Prop
  | init : RunReaches initRunState
  | step {s t : RunState} : RunReaches s → RunStep s t → RunReaches t

/-- C3: evaluation at the failing input. Because the frame dispatcher has
no state guard, a second E frame dispatched after the X frame (while the X
frame is still draining, session not yet destroyed) re-creates the child
and both output pipes, and the session then appends O and E frames after
the X frame and a second X frame: the trace O, E, X, O, E, X is a
reachable sent trace. It contains the X byte twice (so X is not sent at
most once) and splits around its first X with a non-empty — O-frame
leading — tail (so O and E frames are appended after X and X does not
follow the last O and E frames), refuting the claim on the code. -/
theorem exit_frame_violation_reachable :
    RunReaches (RunState.mk false false false false [79, 69, 88, 79, 69, 88]) ∧
    (RunState.mk false false false false [79, 69, 88, 79, 69, 88]).sent.count 88 = 2 ∧
    (RunState.mk false false false false [79, 69, 88, 79, 69, 88]).sent =
      [79, 69] ++ 88 :: [79, 69, 88] ∧
    ([79, 69, 88] : List Nat) ≠ [] ∧ (79 : Nat) ∈ ([79, 69, 88] : List Nat) := by
  refine ⟨?_, by decide, by decide, by decide, by decide⟩
  exact RunReaches.step
    (RunReaches.step
      (RunReaches.step
        (RunReaches.step
          (RunReaches.step
            (RunReaches.step
              (RunReaches.step RunReaches.init
                (RunStep.stdout_eof initRunState rfl rfl))
              (RunStep.stderr_eof (RunState.mk false true true false [79]) rfl rfl))
            (RunStep.proc_exit (RunState.mk false false true false [79, 69]) rfl rfl rfl rfl))
          (RunStep.exec_again (RunState.mk false false false false [79, 69, 88]) rfl))
        (RunStep.stdout_eof (RunState.mk true true true false [79, 69, 88]) rfl rfl))
      (RunStep.stderr_eof (RunState.mk false true true false [79, 69, 88, 79]) rfl rfl))
    (RunStep.proc_exit (RunState.mk false false true false [79, 69, 88, 79, 69]) rfl rfl rfl rfl)

/-- Contiguous byte slice of a flat byte buffer: len bytes starting at
offset off. -/
def byteSlice (a : List Nat) (off len : Nat) : List Nat := (a.drop off).take len

/-- memmove(a + dst, a + src, cnt) over a flat byte buffer: the cnt source
bytes are read from the original buffer (memmove copies as if through a
temporary) and replace the cnt bytes at dst. -/
def memmoveBytes (a : List Nat) (dst src cnt : Nat) : List Nat :=
  a.take dst ++ byteSlice a src cnt ++ a.drop (dst + cnt)

/-- sizeof(struct Connection) on the 32-bit Windows target, ice9d.c lines
71-92: id (4) + state (4) + sock (4) + recvbuf (73728) + recvbuf_used (4)
+ sendbuf (131072) + sendbuf_used (4) + three string pointers (12) + four
handles (16); every field has 4-byte size and alignment, so no padding. -/
def CONNECTION_SIZE : Nat := 4 + 4 + 4 + RECVBUF_SIZE + 4 + SENDBUF_SIZE + 4 + 12 + 16

/-- Session-table compaction of connection_close, ice9d.c lines 532-533,
on the flattened byte image of the connections array: the destination is
connections + idx (byte offset idx * sizeof), the source is
connections + idx + 1, and the byte count passed to memmove is
num_connections - idx - 1 — the element count, with no multiplication by
sizeof(struct Connection). -/
def connection_close_compact (connSize : Nat) (table : List Nat) (idx n : Nat) : List Nat :=
  memmoveBytes table (idx * connSize) ((idx + 1) * connSize) (n - idx - 1)

/-- Evaluation of the compaction at a table of two sessions whose byte
images are all-7 and all-9, destroying index 0: only one byte is copied,
so the first slot afterwards is 9 followed by S-1 bytes of the destroyed
session, not the surviving session's image. -/
theorem connection_close_compact_eval (S2 : Nat) :
    byteSlice (connection_close_compact (S2 + 2)
        (List.replicate (S2 + 2) 7 ++ List.replicate (S2 + 2) 9) 0 2) 0 (S2 + 2) =
      9 :: List.replicate (S2 + 1) 7 ∧
    byteSlice (connection_close_compact (S2 + 2)
        (List.replicate (S2 + 2) 7 ++ List.replicate (S2 + 2) 9) 0 2) 0 (S2 + 2) ≠
      List.replicate (S2 + 2) 9 := by
  have hA : (List.replicate (S2 + 2) (7 : Nat)).length = S2 + 2 := List.length_replicate _ _
  have h1 : (List.replicate (S2 + 2) (7 : Nat) ++ List.replicate (S2 + 2) (9 : Nat)).drop
      (S2 + 2) = List.replicate (S2 + 2) 9 := by
    have hd := List.drop_left (List.replicate (S2 + 2) (7 : Nat))
      (List.replicate (S2 + 2) (9 : Nat))
    rwa [hA] at hd
  have h2 : (List.replicate (S2 + 2) (7 : Nat) ++ List.replicate (S2 + 2) (9 : Nat)).drop 1 =
      List.replicate (S2 + 1) 7 ++ List.replicate (S2 + 2) 9 := by
    rw [List.drop_append_of_le_length (by simp), List.drop_replicate]
    norm_num
  have hmin : 1 ⊓ (S2 + 2) = 1 := by omega
  have heval : connection_close_compact (S2 + 2)
      (List.replicate (S2 + 2) 7 ++ List.replicate (S2 + 2) 9) 0 2 =
        9 :: (List.replicate (S2 + 1) 7 ++ List.replicate (S2 + 2) 9) := by
    unfold connection_close_compact memmoveBytes byteSlice
    simp [h1, h2, List.take_replicate, hmin]
  have hfirst : byteSlice (connection_close_compact (S2 + 2)
      (List.replicate (S2 + 2) 7 ++ List.replicate (S2 + 2) 9) 0 2) 0 (S2 + 2) =
        9 :: List.replicate (S2 + 1) 7 := by
    rw [heval]
    unfold byteSlice
    have hstep : (S2 + 2) = (S2 + 1) + 1 := rfl
    rw [List.drop_zero, hstep, List.take_succ_cons]
    congr 1
    have hB : (List.replicate (S2 + 1) (7 : Nat)).length = S2 + 1 := List.length_replicate _ _
    have ht := List.take_left (List.replicate (S2 + 1) (7 : Nat))
      (List.replicate (S2 + 2) (9 : Nat))
    rwa [hB] at ht
  refine ⟨hfirst, ?_⟩
  rw [hfirst]
  intro hbad
  have hrep : List.replicate (S2 + 2) (9 : Nat) = 9 :: List.replicate (S2 + 1) 9 := by
    have hstep : (S2 + 2) = (S2 + 1) + 1 := rfl
    rw [hstep, List.replicate_succ]
  rw [hrep] at hbad
  have htail : List.replicate (S2 + 1) (7 : Nat) = List.replicate (S2 + 1) 9 :=
    (List.cons.injEq _ _ _ _ ▸ hbad).2
  have hcount := congrArg (List.count 7) htail
  simp [List.count_replicate] at hcount

/-- C4 counterexample: with two live sessions of CONNECTION_SIZE bytes
each, destroying the session at index 0 does not leave the surviving
session's image in slot 0 — the memmove byte count of ice9d.c line 532
omits the factor sizeof(struct Connection), so only one byte moves. -/
theorem connection_close_compact_counterexample :
    byteSlice (connection_close_compact CONNECTION_SIZE
        (List.replicate CONNECTION_SIZE 7 ++ List.replicate CONNECTION_SIZE 9) 0 2)
      0 CONNECTION_SIZE ≠ List.replicate CONNECTION_SIZE 9 := by
  have hCS : CONNECTION_SIZE = 204846 + 2 := by norm_num [CONNECTION_SIZE, RECVBUF_SIZE, SENDBUF_SIZE]
  rw [hCS]
  exact (connection_close_compact_eval 204846).2

end Ice9
